import Mathlib

/-!
Shallow embedding of src/chiaplot/plot_manager.py: the transfer coordinator
that moves finished plot files from a producer host to the harvester with the
most remaining capacity, serializes transfers with a two-sided marker-file
lock, detects stuck transfers, verifies the move by remote size comparison,
and deletes the source only on the success path.

External effects (subprocess calls, ssh commands, file creation and removal,
notifications) are recorded as an event trace; the observable local state is
the staging directory contents plus the three marker files.  The recursive
calls to main() (retry on verification mismatch, restart after a zombie
reset) are modelled with explicit fuel; the environment (probe results,
metrics, remote sizes) is indexed by the remaining fuel so that successive
cycles may observe different external worlds.  Machine integers do not
occur: python integers are unbounded, so byte sizes are Nat and capacity
metrics Int; the transfer speed is a rational (the float arithmetic at the
5-unit threshold is exact for the magnitudes involved).
-/

namespace PlotManager

/-- A file in the producer staging directory: file name and byte size. -/
structure PlotFile where
  name : String
  size : Nat
deriving DecidableEq, Repr

/-- Parsed harvester capacity snapshot (the per-host export JSON document):
fields server, total_plots_until_full and current_plot_drive. -/
structure ServerInfo where
  server : String
  total_plots_until_full : Int
  current_plot_drive : String
deriving DecidableEq, Repr

/-- Entry built by get_next_nas for sorting: the dict with keys server and
total_plots_until_full constructed per server (line 400 of the source). -/
structure NasEntry where
  server : String
  total_plots_until_full : Int
deriving DecidableEq, Repr

/-- Observable file state touched by the coordinator: the staging directory,
the local status_file marker (transfer_job_running), the remote
remote_transfer_is_active marker, and the remote new_plot_received marker. -/
structure LocalState where
  plots : List PlotFile
  localMarker : Bool
  remoteMarker : Bool
  plotReceivedMarker : Bool
deriving DecidableEq, Repr

/-- External side effects performed by the coordinator, in order. -/
inductive Event where
  | touchLocalMarker
  | touchRemoteMarker
  | removeLocalMarker
  | removeRemoteMarker
  | invokeTransfer (plotName host : String)
  | remoteKillNc
  | touchReceived
  | removePlot (name : String)
  | notify (title message : String)
deriving DecidableEq, Repr

/-- Control outcome of a modelled Python call: a normal return carrying the
Python return value, a SystemExit raised by exit() or quit(), an uncaught
exception (FileNotFoundError, IndexError), or exhaustion of the model fuel
bounding the recursion through main(). -/
inductive Flow (α : Type) where
  | ret (a : α)
  | exited
  | crashed
  | fuelOut
deriving DecidableEq, Repr

/-- Results of the external probes and queries made during one cycle:
whether glances runs, the configured harvester list, per-host liveness at
selection time, per-host export snapshots, liveness of the selected NAS
during this cycle, whether an nc process is running locally, whether the
metrics API answers, the transfer speed derived from the tx counter it
reports (line 243), and the remote size query result per plot name (none
models a CalledProcessError). -/
structure Env where
  glancesRunning : Bool
  remote_harvesters : List String
  aliveSel : String → Bool
  exports : String → ServerInfo
  hostAlive : Bool
  ncRunning : Bool
  metricsUp : Bool
  current_transfer_speed : ℚ
  remoteSize : String → Option Nat

/-- The ambient job context set by remote_harvesters_check: the selected
nas_server and the remote_mount read from its export snapshot. -/
structure Job where
  nas_server : String
  remote_mount : String
deriving DecidableEq, Repr

/-- Result of running a code fragment: control flow value, final state,
and the trace of external events it performed. -/
abbrev Res (α : Type) := Flow α × LocalState × List Event

/-- Sequencing: run the continuation only on a normal return, and accumulate
the event traces in order. -/
def andThen {α β : Type} (r : Res α) (k : α → LocalState → Res β) : Res β :=
  match r with
  | (Flow.ret a, st, tr) =>
      match k a st with
      | (f, st2, tr2) => (f, st2, tr ++ tr2)
  | (Flow.exited, st, tr) => (Flow.exited, st, tr)
  | (Flow.crashed, st, tr) => (Flow.crashed, st, tr)
  | (Flow.fuelOut, st, tr) => (Flow.fuelOut, st, tr)

/-- Module-level testing flag (line 57 of the source): False. -/
def testing : Bool := false

/-- Minimum plot size (lines 59-67): in non-testing mode 108644374730 bytes,
based on the K32 plot size. -/
def plot_size : Nat := if testing then 10000000 else 108644374730

/-- Lines 239-250: check_transfer queries the local glances API for the tx
counter of the monitored interface and computes
current_transfer_speed = tx / 1000000 (line 243); the resulting speed value
is what the environment supplies.  Lines 244-247: returns False when the
speed is below 5, True otherwise. -/
def check_transfer (current_transfer_speed : ℚ) : Bool :=
  if current_transfer_speed < 5 then false else true

/-- Stuck-transfer classification outcome. -/
inductive TransferStatus where
  | InProgress
  | Zombie
  | Clear
deriving DecidableEq, Repr

/-- Branch structure of process_control check_status (lines 190-208):
nc running with traffic is a healthy transfer, nc running without traffic is
a zombie, nc not running is clear. -/
def classify (ncRunning : Bool) (speed : ℚ) : TransferStatus :=
  if ncRunning && check_transfer speed then TransferStatus.InProgress
  else if ncRunning && !(check_transfer speed) then TransferStatus.Zombie
  else TransferStatus.Clear

/-- The glob pattern star-dot-plot of line 116: the file name ends in
dot-plot, checked on the character list. -/
def matches_plot_glob (name : String) : Bool :=
  ".plot".data.isSuffixOf name.data

/-- Lines 113-121: list the staging directory, keep files matching the
glob pattern star-dot-plot whose size strictly exceeds plot_size, and return
the first name; an empty candidate list (IndexError) yields False, here
none. -/
def get_list_of_plots (plots : List PlotFile) : Option String :=
  ((plots.filter
      (fun p => matches_plot_glob p.name && decide (plot_size < p.size))).head?).map
    PlotFile.name

/-- Comparison used by get_next_nas: python sorted with
key total_plots_until_full and reverse True places i before j when the key
of j is at most the key of i, keeping the original order on ties (python
sort is stable; a stable sort for a total preorder is unique, so any stable
sort embeds it faithfully). -/
def nas_le (i j : NasEntry) : Prop :=
  j.total_plots_until_full ≤ i.total_plots_until_full

instance : DecidableRel nas_le := fun i j =>
  inferInstanceAs (Decidable (j.total_plots_until_full ≤ i.total_plots_until_full))

/-- Lines 391-403: build one entry per server snapshot, sort by
total_plots_until_full descending (stable), and return the server field of
the first entry; none models the IndexError on an empty list. -/
def get_next_nas (servers : List ServerInfo) : Option String :=
  let next_nas := servers.map (fun s => NasEntry.mk s.server s.total_plots_until_full)
  ((List.insertionSort nas_le next_nas).head?).map NasEntry.server

/-- Lines 347-358: probe every configured harvester and keep the live
ones. -/
def check_remote_harvesters (env : Env) : List String :=
  env.remote_harvesters.filter env.aliveSel

/-- Lines 81-89 with 361-374: fetch the export snapshot of every live
harvester, select the next NAS, and read remote_mount (the
current_plot_drive field) from the selected export. -/
def remote_harvesters_check (env : Env) : Option Job :=
  match get_next_nas ((check_remote_harvesters env).map env.exports) with
  | some nas => some (Job.mk nas (env.exports nas).current_plot_drive)
  | none => none

/-- Line 149: os.remove(plot_path); removing an absent file raises
FileNotFoundError, modelled as crashed. -/
def os_remove (st : LocalState) (name : String) : Res Unit :=
  if st.plots.any (fun p => p.name == name) then
    (Flow.ret (), { st with plots := st.plots.filter (fun p => !(p.name == name)) },
      [Event.removePlot name])
  else
    (Flow.crashed, st, [])

/-- Line 136 with 138: invoke send_plot.sh with the plot path, plot name and
destination host, then ssh the remote kill_nc.sh cleanup (subprocess.call,
so failures never raise here). -/
def send_plot (job : Job) (plot_to_process : String) (st : LocalState) : Res Unit :=
  (Flow.ret (), st,
    [Event.invokeTransfer plot_to_process job.nas_server, Event.remoteKillNc])

/-- Lines 217-236: query the remote size over ssh (a CalledProcessError is
logged and the script quits), read the local size (getsize on a missing path
raises), then compare: on equality touch the remote new_plot_received marker
and return True, otherwise return False. -/
def verify_plot_move (env : Env) (st : LocalState) (plot_to_process : String) : Res Bool :=
  match env.remoteSize plot_to_process with
  | none => (Flow.exited, st, [])
  | some remote_plot_size =>
    match st.plots.find? (fun p => p.name == plot_to_process) with
    | none => (Flow.crashed, st, [])
    | some p =>
      if remote_plot_size = p.size then
        (Flow.ret true, { st with plotReceivedMarker := true }, [Event.touchReceived])
      else
        (Flow.ret false, st, [])

/-- Title of the offline notification (line 213). -/
def offline_title (nas : String) : String := nas ++ " OFFLINE"

/-- Message of the offline notification (line 213). -/
def offline_message (nas : String) : String :=
  "Your NAS Server: " ++ nas ++
    " cannot be reached. Plots cannot move! Please Correct IMMEDIATELY!"

/-- Lines 166-214: process_control.  The retry argument models the recursive
call to main() made on the zombie path (line 205); note that after that call
returns, control falls off the end of the function and None is returned.
The environment is sampled once per cycle, so the two evaluations of
checkIfProcessRunning and of check_transfer in the if/elif chain coincide.
The remote touch and remove commands use check_output with the error caught
and logged, so a remote failure never escapes; they are modelled as
succeeding.  When the selected NAS is down, a notification naming it is sent
and the script exits (lines 211-214). -/
def process_control (env : Env) (job : Job) (retry : LocalState → Res Unit)
    (command action : String) (st : LocalState) : Res (Option Bool) :=
  if env.hostAlive then
    if command == "set_status" then
      if action == "start" then
        if st.localMarker then
          (Flow.ret none, st, [])
        else
          (Flow.ret none, { st with localMarker := true, remoteMarker := true },
            [Event.touchLocalMarker, Event.touchRemoteMarker])
      else if action == "stop" then
        if st.localMarker then
          (Flow.ret none, { st with localMarker := false, remoteMarker := false },
            [Event.removeLocalMarker, Event.removeRemoteMarker])
        else
          (Flow.ret none, st, [])
      else
        (Flow.ret none, st, [])
    else if command == "check_status" then
      if env.ncRunning then
        if env.metricsUp then
          if check_transfer env.current_transfer_speed then
            (Flow.ret (some true), st, [])
          else
            match retry { st with remoteMarker := false } with
            | (Flow.ret _, st2, tr2) =>
                (Flow.ret none, st2, Event.removeRemoteMarker :: Event.remoteKillNc :: tr2)
            | (Flow.exited, st2, tr2) =>
                (Flow.exited, st2, Event.removeRemoteMarker :: Event.remoteKillNc :: tr2)
            | (Flow.crashed, st2, tr2) =>
                (Flow.crashed, st2, Event.removeRemoteMarker :: Event.remoteKillNc :: tr2)
            | (Flow.fuelOut, st2, tr2) =>
                (Flow.fuelOut, st2, Event.removeRemoteMarker :: Event.remoteKillNc :: tr2)
        else
          (Flow.exited, st, [])
      else
        (Flow.ret (some false), st, [])
    else
      (Flow.ret none, st, [])
  else
    (Flow.exited, st,
      [Event.notify (offline_title job.nas_server) (offline_message job.nas_server)])

/-- Lines 127-156: process_plot.  The busy check proceeds unless
check_status returned True.  The return value of the set_status start call
is ignored by the source, so the transfer is invoked regardless of whether
the lock was actually created.  On verification mismatch the lock is
released and main() is retried; the source has no return after that call,
so when the retry comes back control falls through to the common epilogue
that releases the lock again and removes the source plot. -/
def process_plot (env : Env) (job : Job) (retry : LocalState → Res Unit)
    (st : LocalState) : Res Unit :=
  andThen (process_control env job retry "check_status" "0" st) (fun r st1 =>
    if r = some true then
      (Flow.ret (), st1, [])
    else
      match get_list_of_plots st1.plots with
      | some plot_to_process =>
        if testing then
          (Flow.ret (), st1, [])
        else
          andThen (process_control env job retry "set_status" "start" st1) (fun _ st2 =>
          andThen (send_plot job plot_to_process st2) (fun _ st3 =>
          andThen (verify_plot_move env st3 plot_to_process) (fun ok st4 =>
          if ok then
            andThen (process_control env job retry "set_status" "stop" st4) (fun _ st7 =>
              os_remove st7 plot_to_process)
          else
            andThen (process_control env job retry "set_status" "stop" st4) (fun _ st5 =>
            andThen (retry st5) (fun _ st6 =>
            andThen (process_control env job retry "set_status" "stop" st6) (fun _ st7 =>
              os_remove st7 plot_to_process))))))
      | none => (Flow.ret (), st1, []))

/-- Lines 464-472: main.  verify_glances_is_running exits the script when
glances is absent; system_checks only emits capacity notifications and
touches neither the staging directory nor the markers, so it contributes
nothing to the modelled state; remote_harvesters_check selects the NAS
(raising IndexError when no live harvester exists), then process_plot
runs. -/
def main_cycle (env : Env) (retry : LocalState → Res Unit) (st : LocalState) : Res Unit :=
  if env.glancesRunning then
    match remote_harvesters_check env with
    | some job => process_plot env job retry st
    | none => (Flow.crashed, st, [])
  else
    (Flow.exited, st, [])

/-- Fuel-bounded tower of main() invocations: fuel n + 1 runs one cycle in
environment envs n, handing runMain envs n to the two call sites that
re-enter main(). -/
def runMain (envs : Nat → Env) : Nat → LocalState → Res Unit
  | 0, st => (Flow.fuelOut, st, [])
  | n + 1, st => main_cycle (envs n) (runMain envs n) st

/-- Retry callback that does nothing, used for concrete runs that never
re-enter main(). -/
def retryNoop : LocalState → Res Unit := fun st => (Flow.ret (), st, [])

/-- Export snapshot used in concrete runs. -/
def srvH1 : ServerInfo := ServerInfo.mk "h1" 40 "/mnt/chia"

/-- Base environment for concrete runs: glances up, single live harvester
h1, NAS reachable, no nc process, metrics up with no traffic, remote size
matching the concrete plot. -/
def envBase : Env :=
  { glancesRunning := true
    remote_harvesters := ["h1"]
    aliveSel := fun _ => true
    exports := fun _ => srvH1
    hostAlive := true
    ncRunning := false
    metricsUp := true
    current_transfer_speed := 0
    remoteSize := fun _ => some 108644374731 }

/-- Job selected from envBase. -/
def jobH1 : Job := Job.mk "h1" "/mnt/chia"

/-- Staging directory with one qualifying plot, no markers. -/
def stBase : LocalState :=
  LocalState.mk [PlotFile.mk "plot-a.plot" 108644374731] false false false

/-- State where only the remote marker is present. -/
def stRemoteOnly : LocalState := LocalState.mk [] false true false

/-- State with one qualifying plot and both markers already present. -/
def stHeldPlot : LocalState :=
  LocalState.mk [PlotFile.mk "plot-a.plot" 108644374731] true true false

/-- State with one qualifying plot and the local marker already present. -/
def stHeldLocal : LocalState :=
  LocalState.mk [PlotFile.mk "plot-a.plot" 108644374731] true false false

/-- Environment whose remote size query disagrees with the local size of
the concrete plot: verification fails. -/
def envMismatch : Env := { envBase with remoteSize := fun _ => some 1 }

/-- Environment in which an nc process runs with healthy throughput
(12 units, above the 5-unit threshold): the busy path. -/
def envBusy : Env :=
  { envBase with ncRunning := true, metricsUp := true, current_transfer_speed := 12 }

/-- Depth-indexed environments for the mismatch-then-retry run: the first
cycle (fuel index 1) sees the size mismatch; the retried cycle (fuel
index 0) finds a transfer in progress and exits as busy. -/
def envsC1 : Nat → Env := fun n => if n = 1 then envMismatch else envBusy

/-! Helper lemmas about the embedded functions. -/

theorem andThen_ret {α β : Type} (a : α) (st : LocalState) (tr : List Event)
    (k : α → LocalState → Res β) :
    andThen (Flow.ret a, st, tr) k =
      ((k a st).1, (k a st).2.1, tr ++ (k a st).2.2) := by
  rcases hk : k a st with ⟨f, st2, tr2⟩
  simp [andThen, hk]

theorem pc_offline (env : Env) (job : Job) (retry : LocalState → Res Unit)
    (command action : String) (st : LocalState) (h : env.hostAlive = false) :
    process_control env job retry command action st =
      (Flow.exited, st,
        [Event.notify (offline_title job.nas_server) (offline_message job.nas_server)]) := by
  simp [process_control, h]

theorem pc_check_no_nc (env : Env) (job : Job) (retry : LocalState → Res Unit)
    (st : LocalState) (h : env.hostAlive = true) (hnc : env.ncRunning = false) :
    process_control env job retry "check_status" "0" st =
      (Flow.ret (some false), st, []) := by
  simp [process_control, h, hnc]

theorem pc_start_free (env : Env) (job : Job) (retry : LocalState → Res Unit)
    (st : LocalState) (h : env.hostAlive = true) (hm : st.localMarker = false) :
    process_control env job retry "set_status" "start" st =
      (Flow.ret none, { st with localMarker := true, remoteMarker := true },
        [Event.touchLocalMarker, Event.touchRemoteMarker]) := by
  simp [process_control, h, hm]

theorem pc_start_held (env : Env) (job : Job) (retry : LocalState → Res Unit)
    (st : LocalState) (h : env.hostAlive = true) (hm : st.localMarker = true) :
    process_control env job retry "set_status" "start" st = (Flow.ret none, st, []) := by
  simp [process_control, h, hm]

theorem pc_stop_held (env : Env) (job : Job) (retry : LocalState → Res Unit)
    (st : LocalState) (h : env.hostAlive = true) (hm : st.localMarker = true) :
    process_control env job retry "set_status" "stop" st =
      (Flow.ret none, { st with localMarker := false, remoteMarker := false },
        [Event.removeLocalMarker, Event.removeRemoteMarker]) := by
  simp [process_control, h, hm]

theorem pc_stop_free (env : Env) (job : Job) (retry : LocalState → Res Unit)
    (st : LocalState) (h : env.hostAlive = true) (hm : st.localMarker = false) :
    process_control env job retry "set_status" "stop" st = (Flow.ret none, st, []) := by
  simp [process_control, h, hm]

theorem any_of_find? {l : List PlotFile} {f : PlotFile → Bool} {a : PlotFile}
    (h : l.find? f = some a) : l.any f = true :=
  List.any_eq_true.mpr ⟨a, List.mem_of_find?_eq_some h, List.find?_some h⟩

instance : IsTotal NasEntry nas_le :=
  ⟨fun a b => Int.le_total b.total_plots_until_full a.total_plots_until_full⟩

instance : IsTrans NasEntry nas_le :=
  ⟨fun _ _ _ hab hbc => le_trans hbc hab⟩

/-! Claim theorems. -/

/-- C6: for every set of files in the staging directory, get_list_of_plots
never selects a file whose byte size is at most the minimum size threshold
(108644374730 bytes in non-testing mode); whatever it returns names a file
present in the directory that matches the plot glob pattern and whose size
strictly exceeds the threshold. -/
theorem get_list_of_plots_only_oversize (plots : List PlotFile) (n : String)
    (h : get_list_of_plots plots = some n) :
    ∃ p ∈ plots, p.name = n ∧ matches_plot_glob p.name = true ∧ 108644374730 < p.size := by
  unfold get_list_of_plots at h
  cases hf : plots.filter (fun p => matches_plot_glob p.name && decide (plot_size < p.size)) with
  | nil => rw [hf] at h; simp at h
  | cons q t =>
    rw [hf] at h
    simp only [List.head?_cons, Option.map_some'] at h
    have hq : q ∈ plots.filter (fun p => matches_plot_glob p.name && decide (plot_size < p.size)) := by
      rw [hf]; exact List.mem_cons_self q t
    obtain ⟨hqp, hcond⟩ := List.mem_filter.mp hq
    simp only [Bool.and_eq_true, decide_eq_true_eq] at hcond
    exact ⟨q, hqp, Option.some.inj h, hcond.1, hcond.2⟩

/-- C6 witness: a concrete staging directory where the selected plot
satisfies the guarantees. -/
theorem get_list_of_plots_only_oversize_witness :
    ∃ p ∈ [PlotFile.mk "part.plot.tmp" 200000000000, PlotFile.mk "plot-a.plot" 5,
           PlotFile.mk "plot-b.plot" 108644374731],
      p.name = "plot-b.plot" ∧ matches_plot_glob p.name = true ∧ 108644374730 < p.size :=
  get_list_of_plots_only_oversize _ "plot-b.plot" (by decide)

/-- C5: for every non-empty list of harvester snapshots, get_next_nas
returns the server field of the snapshot with the strictly largest
total_plots_until_full, and repeated calls on identical input agree
(the function is deterministic). -/
theorem get_next_nas_selects_strict_max (servers : List ServerInfo) (s : ServerInfo)
    (hs : s ∈ servers)
    (hmax : ∀ t ∈ servers, t = s ∨ t.total_plots_until_full < s.total_plots_until_full) :
    get_next_nas servers = some s.server ∧ get_next_nas servers = get_next_nas servers := by
  refine ⟨?_, rfl⟩
  cases He : List.insertionSort nas_le
      (servers.map (fun u => NasEntry.mk u.server u.total_plots_until_full)) with
  | nil =>
    exfalso
    have hp := List.perm_insertionSort nas_le
      (servers.map (fun u => NasEntry.mk u.server u.total_plots_until_full))
    rw [He] at hp
    exact List.not_mem_nil _
      (hp.symm.subset (List.mem_map_of_mem _ hs))
  | cons q t =>
    have hp := List.perm_insertionSort nas_le
      (servers.map (fun u => NasEntry.mk u.server u.total_plots_until_full))
    have hsorted := List.sorted_insertionSort (r := nas_le)
      (servers.map (fun u => NasEntry.mk u.server u.total_plots_until_full))
    rw [He] at hp hsorted
    obtain ⟨u, hu, hq⟩ := List.mem_map.mp (hp.subset (List.mem_cons_self q t))
    have hsmem : NasEntry.mk s.server s.total_plots_until_full ∈ q :: t :=
      hp.symm.subset (List.mem_map_of_mem _ hs)
    have hdom : ∀ x ∈ t, nas_le q x := List.rel_of_sorted_cons hsorted
    have hles : s.total_plots_until_full ≤ q.total_plots_until_full := by
      rcases List.mem_cons.mp hsmem with he | hmem2
      · rw [← he]
      · exact hdom _ hmem2
    have hus : u = s := by
      rcases hmax u hu with h1 | h2
      · exact h1
      · exfalso
        have hqu : q.total_plots_until_full = u.total_plots_until_full := by rw [← hq]
        omega
    subst hus
    have hserver : q.server = u.server := by rw [← hq]
    simp only [get_next_nas]
    rw [He]
    simp [hserver]

/-- C5 witness: with snapshots h1 (capacity 40) and h2 (capacity 90), h2 is
selected, and the call is deterministic. -/
theorem get_next_nas_selects_strict_max_witness :
    get_next_nas [ServerInfo.mk "h1" 40 "/mnt/a", ServerInfo.mk "h2" 90 "/mnt/b"] =
      some "h2" ∧
    get_next_nas [ServerInfo.mk "h1" 40 "/mnt/a", ServerInfo.mk "h2" 90 "/mnt/b"] =
      get_next_nas [ServerInfo.mk "h1" 40 "/mnt/a", ServerInfo.mk "h2" 90 "/mnt/b"] :=
  get_next_nas_selects_strict_max _ (ServerInfo.mk "h2" 90 "/mnt/b") (by decide) (by decide)

/-- C7: with the harvester reachable, release with no local marker held is
a no-op (normal return, state untouched, no external command issued), and
acquire with the local marker already held fails as a no-op without
creating or touching the remote marker. -/
theorem lock_acquire_release_idempotent (env : Env) (job : Job)
    (retry : LocalState → Res Unit) (st : LocalState) (h : env.hostAlive = true) :
    (st.localMarker = false →
      process_control env job retry "set_status" "stop" st = (Flow.ret none, st, [])) ∧
    (st.localMarker = true →
      process_control env job retry "set_status" "start" st = (Flow.ret none, st, [])) :=
  ⟨fun hm => pc_stop_free env job retry st h hm,
   fun hm => pc_start_held env job retry st h hm⟩

/-- C7 witness: release on a lock-free state and acquire on a lock-held
state, both concrete, are no-ops. -/
theorem lock_acquire_release_idempotent_witness :
    process_control envBase jobH1 retryNoop "set_status" "stop" stBase =
      (Flow.ret none, stBase, []) ∧
    process_control envBase jobH1 retryNoop "set_status" "start" stHeldPlot =
      (Flow.ret none, stHeldPlot, []) :=
  ⟨(lock_acquire_release_idempotent envBase jobH1 retryNoop stBase rfl).1 rfl,
   (lock_acquire_release_idempotent envBase jobH1 retryNoop stHeldPlot rfl).2 rfl⟩

/-- C4 counterexample: a state in which the remote marker exists but the
local one does not; running the release operation leaves the remote marker
in place, contradicting the claim that release removes the remote marker
regardless of whether the local marker exists. -/
theorem release_ignores_lone_remote_marker :
    stRemoteOnly.remoteMarker = true ∧ stRemoteOnly.localMarker = false ∧
    (process_control envBase jobH1 retryNoop "set_status" "stop" stRemoteOnly).2.1 =
      stRemoteOnly := by decide

/-- C4 amended: release removes both markers when the local marker is
present; when the local marker is absent, release is a no-op and the remote
marker, even if present, is not removed. -/
theorem release_removes_both_only_when_local_held (env : Env) (job : Job)
    (retry : LocalState → Res Unit) (st : LocalState) (h : env.hostAlive = true) :
    (st.localMarker = true →
      process_control env job retry "set_status" "stop" st =
        (Flow.ret none, { st with localMarker := false, remoteMarker := false },
          [Event.removeLocalMarker, Event.removeRemoteMarker])) ∧
    (st.localMarker = false →
      process_control env job retry "set_status" "stop" st = (Flow.ret none, st, [])) :=
  ⟨fun hm => pc_stop_held env job retry st h hm,
   fun hm => pc_stop_free env job retry st h hm⟩

/-- C4 amended witness: on a state holding both markers release removes
both; on the lone-remote state it leaves everything unchanged. -/
theorem release_removes_both_only_when_local_held_witness :
    process_control envBase jobH1 retryNoop "set_status" "stop" stHeldPlot =
      (Flow.ret none,
        { stHeldPlot with localMarker := false, remoteMarker := false },
        [Event.removeLocalMarker, Event.removeRemoteMarker]) ∧
    process_control envBase jobH1 retryNoop "set_status" "stop" stRemoteOnly =
      (Flow.ret none, stRemoteOnly, []) :=
  ⟨(release_removes_both_only_when_local_held envBase jobH1 retryNoop stHeldPlot rfl).1 rfl,
   (release_removes_both_only_when_local_held envBase jobH1 retryNoop stRemoteOnly rfl).2 rfl⟩

/-- C3 counterexample: at a throughput of exactly 5 units, the threshold
itself, with the transfer process running, the code classifies the transfer
as InProgress, not Zombie as the claim requires for throughput at the
threshold: check_transfer returns True at speed 5 because the test is a
strict less-than. -/
theorem classify_at_threshold_is_in_progress :
    ((5 : ℚ) ≤ 5) ∧ check_transfer 5 = true ∧
    classify true 5 = TransferStatus.InProgress ∧
    ¬ classify true 5 = TransferStatus.Zombie := by decide

/-- C3 amended: with the process running, throughput at or above the
5-unit threshold classifies as InProgress and throughput strictly below it
as Zombie; with the process not running the classification is Clear
regardless of throughput.  On the Zombie path process_control removes the
remote marker, kills the remote transfer process, and restarts the job by
re-entering main. -/
theorem classify_amended (nc : Bool) (speed : ℚ) (env : Env) (job : Job)
    (retry : LocalState → Res Unit) (st : LocalState) :
    (nc = true → 5 ≤ speed → classify nc speed = TransferStatus.InProgress) ∧
    (nc = true → speed < 5 → classify nc speed = TransferStatus.Zombie) ∧
    (nc = false → classify nc speed = TransferStatus.Clear) ∧
    (env.hostAlive = true → env.ncRunning = true → env.metricsUp = true →
      env.current_transfer_speed = speed → speed < 5 →
      (process_control env job retry "check_status" "0" st).2.1 =
        (retry { st with remoteMarker := false }).2.1 ∧
      (process_control env job retry "check_status" "0" st).2.2 =
        Event.removeRemoteMarker :: Event.remoteKillNc ::
          (retry { st with remoteMarker := false }).2.2) := by
  have hlt : speed < 5 → check_transfer speed = false := by
    intro hs; simp [check_transfer, hs]
  have hge : 5 ≤ speed → check_transfer speed = true := by
    intro hs; simp [check_transfer, not_lt.mpr hs]
  refine ⟨?_, ?_, ?_, ?_⟩
  · intro h1 h2; simp [classify, h1, hge h2]
  · intro h1 h2; simp [classify, h1, hlt h2]
  · intro h1; simp [classify, h1]
  · intro ha hn hm hs h5
    have hcf : check_transfer env.current_transfer_speed = false := by
      rw [hs]; exact hlt h5
    rcases hr : retry { st with remoteMarker := false } with ⟨f, st2, tr2⟩
    cases f <;> simp [process_control, ha, hn, hm, hcf, hr]

/-- C3 amended witness: the three classification cases at concrete
throughputs 0, 50 and 7. -/
theorem classify_amended_witness :
    classify true 0 = TransferStatus.Zombie ∧
    classify true 50 = TransferStatus.InProgress ∧
    classify false 7 = TransferStatus.Clear :=
  ⟨(classify_amended true 0 envBase jobH1 retryNoop stBase).2.1 rfl (by decide),
   (classify_amended true 50 envBase jobH1 retryNoop stBase).1 rfl (by decide),
   (classify_amended false 7 envBase jobH1 retryNoop stBase).2.2.1 rfl⟩

/-- C9: when the harvester selected for the job fails the liveness probe
between selection and lock acquisition, the cycle halts with a SystemExit,
the only side effect is a notification whose message names the unreachable
harvester, and the state is untouched: no local marker is created and no
file is deleted. -/
theorem selected_harvester_offline_is_fatal (env : Env) (job : Job)
    (retry : LocalState → Res Unit) (st : LocalState)
    (hg : env.glancesRunning = true)
    (hsel : remote_harvesters_check env = some job)
    (hdead : env.hostAlive = false) :
    main_cycle env retry st =
      (Flow.exited, st,
        [Event.notify (offline_title job.nas_server) (offline_message job.nas_server)]) ∧
    offline_message job.nas_server =
      "Your NAS Server: " ++ job.nas_server ++
        " cannot be reached. Plots cannot move! Please Correct IMMEDIATELY!" := by
  constructor
  · simp only [main_cycle, hg, if_true, hsel]
    simp [process_plot, pc_offline env job retry "check_status" "0" st hdead, andThen]
  · rfl

/-- C9 witness: a concrete cycle whose selected harvester h1 goes down
before lock acquisition. -/
theorem selected_harvester_offline_is_fatal_witness :
    main_cycle { envMismatch with hostAlive := false } retryNoop stBase =
      (Flow.exited, stBase,
        [Event.notify (offline_title jobH1.nas_server)
          (offline_message jobH1.nas_server)]) :=
  (selected_harvester_offline_is_fatal { envMismatch with hostAlive := false }
    jobH1 retryNoop stBase rfl (by decide) rfl).1

/-- C2 counterexample: a cycle in which the local status file already
exists when process_plot attempts to set it (with no nc process running, so
the busy check passes) still invokes the external transfer program,
contradicting the claim that the transfer is not invoked in that case. -/
theorem transfer_invoked_despite_existing_marker :
    stHeldPlot.localMarker = true ∧
    Event.invokeTransfer "plot-a.plot" "h1" ∈
      (runMain (fun _ => envBase) 1 stHeldPlot).2.2 := by decide

/-- C2 amended: when the local status file already exists, the acquire step
itself fails as a no-op that does not touch the remote marker; but
process_plot ignores that failure, so whenever the busy check did not
classify a transfer as running, the external transfer program is still
invoked. -/
theorem acquire_held_noop_but_transfer_invoked (env : Env) (job : Job)
    (retry : LocalState → Res Unit) (st : LocalState) (nm : String)
    (h : env.hostAlive = true) (hnc : env.ncRunning = false)
    (hm : st.localMarker = true) (hl : get_list_of_plots st.plots = some nm) :
    process_control env job retry "set_status" "start" st = (Flow.ret none, st, []) ∧
    ∃ rest, (process_plot env job retry st).2.2 =
      Event.invokeTransfer nm job.nas_server :: Event.remoteKillNc :: rest := by
  refine ⟨pc_start_held env job retry st h hm, ?_⟩
  simp only [process_plot, pc_check_no_nc env job retry st h hnc, andThen_ret,
    List.nil_append]
  simp [hl, testing, pc_start_held env job retry st h hm, andThen_ret, send_plot]

/-- C2 amended witness: the concrete held-marker cycle where acquire is a
no-op yet the transfer runs. -/
theorem acquire_held_noop_but_transfer_invoked_witness :
    process_control envBase jobH1 retryNoop "set_status" "start" stHeldPlot =
      (Flow.ret none, stHeldPlot, []) ∧
    ∃ rest, (process_plot envBase jobH1 retryNoop stHeldPlot).2.2 =
      Event.invokeTransfer "plot-a.plot" "h1" :: Event.remoteKillNc :: rest :=
  acquire_held_noop_but_transfer_invoked envBase jobH1 retryNoop stHeldPlot
    "plot-a.plot" rfl rfl rfl (by decide)

/-- C8: when the locally measured source size equals the remote-reported
size of the transferred plot, the cycle takes the success path: the remote
plot-received marker is touched, verification returns true, both lock
markers are released, and the source plot file is deleted. -/
theorem equal_sizes_take_success_path (env : Env) (job : Job)
    (retry : LocalState → Res Unit) (st : LocalState) (nm : String) (p : PlotFile)
    (h : env.hostAlive = true) (hnc : env.ncRunning = false)
    (hm : st.localMarker = false)
    (hl : get_list_of_plots st.plots = some nm)
    (hf : st.plots.find? (fun q => q.name == nm) = some p)
    (hr : env.remoteSize nm = some p.size) :
    (verify_plot_move env { st with localMarker := true, remoteMarker := true } nm).1 =
      Flow.ret true ∧
    process_plot env job retry st =
      (Flow.ret (),
        LocalState.mk (st.plots.filter (fun q => !(q.name == nm))) false false true,
        [Event.touchLocalMarker, Event.touchRemoteMarker,
          Event.invokeTransfer nm job.nas_server, Event.remoteKillNc,
          Event.touchReceived, Event.removeLocalMarker, Event.removeRemoteMarker,
          Event.removePlot nm]) := by
  have hver : verify_plot_move env { st with localMarker := true, remoteMarker := true } nm =
      (Flow.ret true,
        { st with localMarker := true, remoteMarker := true, plotReceivedMarker := true },
        [Event.touchReceived]) := by
    simp [verify_plot_move, hr, hf]
  refine ⟨by rw [hver], ?_⟩
  have hstop : process_control env job retry "set_status" "stop"
      { st with localMarker := true, remoteMarker := true, plotReceivedMarker := true } =
      (Flow.ret none,
        { st with localMarker := false, remoteMarker := false, plotReceivedMarker := true },
        [Event.removeLocalMarker, Event.removeRemoteMarker]) :=
    pc_stop_held env job retry _ h rfl
  have hrem : os_remove
      { st with localMarker := false, remoteMarker := false, plotReceivedMarker := true } nm =
      (Flow.ret (),
        { st with
            plots := st.plots.filter (fun q => !(q.name == nm)),
            localMarker := false, remoteMarker := false, plotReceivedMarker := true },
        [Event.removePlot nm]) := by
    simp [os_remove, any_of_find? hf]
  simp only [process_plot, pc_check_no_nc env job retry st h hnc, andThen_ret,
    List.nil_append]
  simp [hl, testing, pc_start_free env job retry st h hm, andThen_ret, send_plot,
    hver, hstop, hrem]

/-- C8 witness: the concrete cycle in which local and remote sizes agree at
108644374731 bytes finishes the success path and removes the source. -/
theorem equal_sizes_take_success_path_witness :
    (verify_plot_move envBase
      { stBase with localMarker := true, remoteMarker := true } "plot-a.plot").1 =
      Flow.ret true ∧
    process_plot envBase jobH1 retryNoop stBase =
      (Flow.ret (),
        LocalState.mk (stBase.plots.filter (fun q => !(q.name == "plot-a.plot")))
          false false true,
        [Event.touchLocalMarker, Event.touchRemoteMarker,
          Event.invokeTransfer "plot-a.plot" "h1", Event.remoteKillNc,
          Event.touchReceived, Event.removeLocalMarker, Event.removeRemoteMarker,
          Event.removePlot "plot-a.plot"]) :=
  equal_sizes_take_success_path envBase jobH1 retryNoop stBase "plot-a.plot"
    (PlotFile.mk "plot-a.plot" 108644374731) rfl rfl rfl (by decide) (by decide) rfl

/-- C10: when the remote size query during verification fails (the remote
command returns a non-zero status), the script quits: the cycle stops with
a SystemExit before any comparison, and the source plot file is not
deleted (the staging directory is unchanged). -/
theorem size_query_failure_preserves_source (env : Env) (job : Job)
    (retry : LocalState → Res Unit) (st : LocalState) (nm : String)
    (h : env.hostAlive = true) (hnc : env.ncRunning = false)
    (hm : st.localMarker = false)
    (hl : get_list_of_plots st.plots = some nm)
    (hr : env.remoteSize nm = none) :
    process_plot env job retry st =
      (Flow.exited, { st with localMarker := true, remoteMarker := true },
        [Event.touchLocalMarker, Event.touchRemoteMarker,
          Event.invokeTransfer nm job.nas_server, Event.remoteKillNc]) ∧
    (process_plot env job retry st).2.1.plots = st.plots := by
  have hver : verify_plot_move env { st with localMarker := true, remoteMarker := true } nm =
      (Flow.exited, { st with localMarker := true, remoteMarker := true }, []) := by
    simp [verify_plot_move, hr]
  have hmain : process_plot env job retry st =
      (Flow.exited, { st with localMarker := true, remoteMarker := true },
        [Event.touchLocalMarker, Event.touchRemoteMarker,
          Event.invokeTransfer nm job.nas_server, Event.remoteKillNc]) := by
    simp only [process_plot, pc_check_no_nc env job retry st h hnc, andThen_ret,
      List.nil_append]
    simp [hl, testing, pc_start_free env job retry st h hm, andThen_ret, send_plot,
      hver, andThen]
  exact ⟨hmain, by rw [hmain]⟩

/-- C10 witness: the concrete cycle whose remote size query raises a
CalledProcessError stops without touching the staging directory. -/
theorem size_query_failure_preserves_source_witness :
    process_plot { envBase with remoteSize := fun _ => none } jobH1 retryNoop stBase =
      (Flow.exited, { stBase with localMarker := true, remoteMarker := true },
        [Event.touchLocalMarker, Event.touchRemoteMarker,
          Event.invokeTransfer "plot-a.plot" "h1", Event.remoteKillNc]) ∧
    (process_plot { envBase with remoteSize := fun _ => none }
      jobH1 retryNoop stBase).2.1.plots = stBase.plots :=
  size_query_failure_preserves_source { envBase with remoteSize := fun _ => none }
    jobH1 retryNoop stBase "plot-a.plot" rfl rfl rfl (by decide) rfl

/-- C1: a run refuting the claim that a cycle whose verification found
unequal sizes never deletes the source.  The first cycle transfers
plot-a.plot and verification fails (remote size 1); the lock is released
and main is re-entered; the retried cycle finds a transfer in progress
(nc running at 12 units of throughput) and returns as busy; control then
falls through to the epilogue of the failed frame, which removes the
source plot even though no verification ever succeeded: the final staging
directory is empty, the trace holds the removal, and no plot-received
touch ever happened. -/
theorem mismatch_cycle_still_deletes_source :
    (runMain envsC1 2 stBase).1 = Flow.ret () ∧
    (runMain envsC1 2 stBase).2.1.plots = [] ∧
    Event.removePlot "plot-a.plot" ∈ (runMain envsC1 2 stBase).2.2 ∧
    Event.touchReceived ∉ (runMain envsC1 2 stBase).2.2 := by decide

end PlotManager
